import Mathlib

/-!
Shallow embedding of the two Lambda entry points of the Jewelers repository:

* `src/backend/compute_quote.py` — the Quote Calculator (`computeQuoteHandler`);
* `src/backend/quote_api.py` — the Quote API Gateway Handler (`apiHandler`).

Modelling conventions:

* Python / JSON values are modelled by `PyVal`.  Python `int`, `float` and
  `bool` inputs to arithmetic are identified as exact rationals (`ℚ`); the
  binary floating-point representation, its overflow range and the non-finite
  values `inf`/`nan` are below this abstraction (no claim distinguishes them).
* A Python dict is an association list `List (String × PyVal)`; `dict.get k`
  returns Python `None` (here `PyVal.none`) when the key is absent, exactly as
  the handlers rely on.
* Fallible Python code is embedded in `Except`: an uncaught Python exception
  is an `Except.error (e : PyExc)` result.
* External effects are parameters: the optional Datadog emitter
  (`Option MetricEmit`, `Option.none` = the `datadog_lambda` import failed)
  and the Step Functions client (`SfCall`, giving for each
  `(stateMachineArn, input)` either a raised exception's text or the
  response's optional `output` field).
-/

section JewelersModel

attribute [local semireducible] Rat.mul Rat.inv Rat.add Rat.sub Rat.ofScientific

/-- A Python/JSON value (ints, floats and bools collapse to exact `ℚ` where
converted; `PyVal.none` is Python `None` / JSON `null`). -/
inductive PyVal where
  | none
  | bool (b : Bool)
  | num (q : ℚ)
  | str (s : String)
  | list (xs : List PyVal)
  | dict (kvs : List (String × PyVal))
deriving Repr, Inhabited

/-- Python truthiness (`bool(x)`): `None`, `False`, zero, the empty string and
empty containers are falsy. -/
def pyTruthy : PyVal → Bool
  | PyVal.none => false
  | PyVal.bool b => b
  | PyVal.num q => if q = 0 then false else true
  | PyVal.str s => if s = "" then false else true
  | PyVal.list xs => match xs with | [] => false | _ => true
  | PyVal.dict kvs => match kvs with | [] => false | _ => true

/-- The Python test `x is None`. -/
def pyIsNone : PyVal → Bool
  | PyVal.none => true
  | _ => false

/-- Python `d.get(k)`: the first binding of `k`, or `None` when absent. -/
def dictGet (kvs : List (String × PyVal)) (k : String) : PyVal :=
  match kvs with
  | [] => PyVal.none
  | (k0, v) :: rest => if k0 = k then v else dictGet rest k

/-- Python `d.get(k, default)`. -/
def dictGetD (kvs : List (String × PyVal)) (k : String) (dflt : PyVal) : PyVal :=
  match kvs with
  | [] => dflt
  | (k0, v) :: rest => if k0 = k then v else dictGetD rest k dflt

/-- Python dict assignment `d[k] = v`: replaces the value in place when the
key is present, otherwise appends (insertion order preserved). -/
def dictSet (kvs : List (String × PyVal)) (k : String) (v : PyVal) :
    List (String × PyVal) :=
  match kvs with
  | [] => [(k, v)]
  | (k0, v0) :: rest =>
    if k0 = k then (k0, v) :: rest else (k0, v0) :: dictSet rest k v

/-! ### Python `float()` conversion (`compute_quote.py` line 59) -/

/-- Value of a decimal digit character, `Option.none` on a non-digit. -/
def digitVal (c : Char) : Option Nat :=
  if c.isDigit then some (c.toNat - 48) else Option.none

/-- Splits a leading run of decimal digits off a character list. -/
def takeDigits : List Char → (List Nat × List Char)
  | [] => ([], [])
  | c :: cs =>
    match digitVal c with
    | some d =>
      let (ds, rest) := takeDigits cs
      (d :: ds, rest)
    | Option.none => ([], c :: cs)

/-- The number denoted by a digit run, most significant first. -/
def digitsToNat (ds : List Nat) : ℕ :=
  ds.foldl (fun a d => a * 10 + d) 0

/-- Optional exponent part of a Python float literal: `e`/`E`, an optional
sign, then at least one digit. -/
def floatExpPart (m : ℚ) (cs : List Char) : Option (ℚ × List Char) :=
  match cs with
  | 'e' :: r =>
    let (r1, esgn) : List Char × ℤ :=
      match r with
      | '+' :: t => (t, 1)
      | '-' :: t => (t, -1)
      | t => (t, 1)
    let (ds, r2) := takeDigits r1
    if ds.isEmpty then Option.none
    else some (m * (10 : ℚ) ^ (esgn * (digitsToNat ds : ℤ)), r2)
  | 'E' :: r =>
    let (r1, esgn) : List Char × ℤ :=
      match r with
      | '+' :: t => (t, 1)
      | '-' :: t => (t, -1)
      | t => (t, 1)
    let (ds, r2) := takeDigits r1
    if ds.isEmpty then Option.none
    else some (m * (10 : ℚ) ^ (esgn * (digitsToNat ds : ℤ)), r2)
  | r => some (m, r)

/-- Unsigned part of a Python float literal: `digits [. digits]` or
`. digits`, then an optional exponent. -/
def floatMagnitude (cs : List Char) : Option (ℚ × List Char) :=
  let (ip, r1) := takeDigits cs
  match r1 with
  | '.' :: r2 =>
    let (fp, r3) := takeDigits r2
    if ip.isEmpty && fp.isEmpty then Option.none
    else
      floatExpPart ((digitsToNat ip : ℚ) + (digitsToNat fp : ℚ) / (10 : ℚ) ^ fp.length) r3
  | _ =>
    if ip.isEmpty then Option.none else floatExpPart (digitsToNat ip : ℚ) r1

/-- Whitespace stripped by Python `float()` around a numeric literal
(the ASCII part of `str.strip()`). -/
def pySpace (c : Char) : Bool :=
  c = ' ' || c = '\t' || c = '\n' || c = '\r' || c = '\x0b' || c = '\x0c'

/-- Strips leading and trailing whitespace from a character list. -/
def stripChars (cs : List Char) : List Char :=
  ((cs.dropWhile pySpace).reverse.dropWhile pySpace).reverse

/-- Python `float(s)` on a string: strip surrounding whitespace, optional
sign, then a float literal consuming the whole remainder.  The non-finite
literals `inf`/`infinity`/`nan` and digit-group underscores are outside the
exact-rational model and are not recognised. -/
def pyFloatOfString (s : String) : Option ℚ :=
  let cs := stripChars s.data
  let (cs1, sgn) : List Char × ℚ :=
    match cs with
    | '+' :: r => (r, 1)
    | '-' :: r => (r, -1)
    | r => (r, 1)
  match floatMagnitude cs1 with
  | some (m, []) => some (sgn * m)
  | _ => Option.none

/-- Python `float(value)` on an arbitrary value: numbers and bools convert,
numeric strings parse, everything else (`None`, lists, dicts, non-numeric
strings) raises `TypeError`/`ValueError`, modelled as `Option.none`. -/
def pyFloat : PyVal → Option ℚ
  | PyVal.bool b => some (if b then 1 else 0)
  | PyVal.num q => some q
  | PyVal.str s => pyFloatOfString s
  | _ => Option.none

/-! ### Python `round(x, 2)` (`compute_quote.py` line 64) -/

/-- Round a rational to the nearest integer, ties to the even neighbour
(Python's `round` on exact halves). -/
def roundHalfEven (q : ℚ) : ℤ :=
  let f : ℤ := ⌊q⌋
  let r : ℚ := q - (f : ℚ)
  if r < 1 / 2 then f
  else if 1 / 2 < r then f + 1
  else if f % 2 = 0 then f else f + 1

/-- Python `round(x, 2)` over the exact-rational model of floats. -/
def pyRound2 (q : ℚ) : ℚ :=
  (roundHalfEven (q * 100) : ℚ) / 100

/-! ### Datadog metric emission -/

/-- The `lambda_metric(name, value, tags=...)` callable: either succeeds or
raises (the exception itself is irrelevant, it is always swallowed). -/
def MetricEmit : Type := String → ℚ → List String → Except Unit Unit

/-- Runs `lambda_metric` inside its `try/except Exception: pass` block when
the import succeeded (`if lambda_metric:` guard); any outcome is discarded. -/
def metricProbe (em : Option MetricEmit) (name : String) (v : ℚ)
    (tags : List String) : Unit :=
  match em with
  | Option.none => ()
  | some f =>
    match f name v tags with
    | Except.ok _ => ()
    | Except.error _ => ()

/-- Python `str(x)` as used in the `customer:` metric tag.  Scalars are
exact; container `repr` punctuation is approximated (the tag is only ever
passed to the swallowed metric emission). -/
def pyStrOf : PyVal → String
  | PyVal.none => "None"
  | PyVal.bool b => if b then "True" else "False"
  | PyVal.num q => if q.den = 1 then toString q.num else toString q.num ++ "/" ++ toString q.den
  | PyVal.str s => s
  | PyVal.list _ => "[...]"
  | PyVal.dict _ => "\x7b...\x7d"

/-! ### `compute_quote.handler` (`src/backend/compute_quote.py` lines 39-83) -/

/-- The Quote Calculator Lambda (`compute_quote.handler`).  `event` is the
invocation payload (a dict, per the declared `Dict[str, Any]` contract);
`em` is the optional Datadog emitter. -/
def computeQuoteHandler (em : Option MetricEmit) (event : List (String × PyVal)) :
    PyVal :=
  let value := dictGet event "value"
  let numeric_value : ℚ :=
    match pyFloat value with
    | some v => v
    | Option.none => 0
  let premium : ℚ := pyRound2 (numeric_value * (1 / 100))
  let _m : Unit :=
    metricProbe em "quote.premium" premium
      ["app:jewelers-mutual-clone",
       "customer:" ++ pyStrOf (dictGetD event "name" (PyVal.str "unknown"))]
  PyVal.dict [("quote", PyVal.num premium)]

/-! ### `json.loads` (RFC 8259 grammar as implemented by Python's `json`;
the `NaN`/`Infinity` extensions are outside the exact-rational model) -/

/-- JSON insignificant whitespace. -/
def jsonWsChar (c : Char) : Bool :=
  c = ' ' || c = '\t' || c = '\n' || c = '\r'

/-- Drops leading JSON whitespace. -/
def skipWs : List Char → List Char
  | [] => []
  | c :: cs => if jsonWsChar c then skipWs cs else c :: cs

/-- Value of a hexadecimal digit character. -/
def hexVal (c : Char) : Option Nat :=
  if '0' ≤ c && c ≤ '9' then some (c.toNat - 48)
  else if 'a' ≤ c && c ≤ 'f' then some (c.toNat - 87)
  else if 'A' ≤ c && c ≤ 'F' then some (c.toNat - 55)
  else Option.none

/-- Body of a JSON string after the opening quote: content characters and the
remainder after the closing quote.  Escapes follow Python's strict decoder:
the eight simple escapes, `\uXXXX` with surrogate-pair combination, and
unescaped control characters rejected.  (A lone surrogate, which Lean's
`Char` cannot carry, degrades to `Char.ofNat`'s fallback; no claim reaches
one.) -/
def jStrChars : Nat → List Char → Option (List Char × List Char)
  | 0, _ => Option.none
  | Nat.succ _, [] => Option.none
  | Nat.succ _, '"' :: rest => some ([], rest)
  | Nat.succ f, '\\' :: 'u' :: a :: b :: c :: d :: rest =>
    match hexVal a, hexVal b, hexVal c, hexVal d with
    | some ha, some hb, some hc, some hd =>
      let n := ((ha * 16 + hb) * 16 + hc) * 16 + hd
      if 55296 ≤ n && n ≤ 56319 then
        match rest with
        | '\\' :: 'u' :: w :: x :: y :: z :: rest2 =>
          match hexVal w, hexVal x, hexVal y, hexVal z with
          | some hw, some hx, some hy, some hz =>
            let m := ((hw * 16 + hx) * 16 + hy) * 16 + hz
            if 56320 ≤ m && m ≤ 57343 then
              (jStrChars f rest2).map
                (fun p => (Char.ofNat (65536 + (n - 55296) * 1024 + (m - 56320)) :: p.1, p.2))
            else
              (jStrChars f rest2).map (fun p => (Char.ofNat n :: Char.ofNat m :: p.1, p.2))
          | _, _, _, _ => Option.none
        | _ => (jStrChars f rest).map (fun p => (Char.ofNat n :: p.1, p.2))
      else (jStrChars f rest).map (fun p => (Char.ofNat n :: p.1, p.2))
    | _, _, _, _ => Option.none
  | Nat.succ f, '\\' :: e :: rest =>
    match e with
    | '"' => (jStrChars f rest).map (fun p => ('"' :: p.1, p.2))
    | '\\' => (jStrChars f rest).map (fun p => ('\\' :: p.1, p.2))
    | '/' => (jStrChars f rest).map (fun p => ('/' :: p.1, p.2))
    | 'b' => (jStrChars f rest).map (fun p => ('\x08' :: p.1, p.2))
    | 'f' => (jStrChars f rest).map (fun p => ('\x0c' :: p.1, p.2))
    | 'n' => (jStrChars f rest).map (fun p => ('\n' :: p.1, p.2))
    | 'r' => (jStrChars f rest).map (fun p => ('\r' :: p.1, p.2))
    | 't' => (jStrChars f rest).map (fun p => ('\t' :: p.1, p.2))
    | _ => Option.none
  | Nat.succ f, c :: rest =>
    if c.toNat < 32 then Option.none
    else (jStrChars f rest).map (fun p => (c :: p.1, p.2))

/-- Integer part of a JSON number: `0`, or a nonzero digit followed by
digits (leading zeros are not JSON). -/
def jIntDigits : List Char → Option (List Nat × List Char)
  | '0' :: rest => some ([0], rest)
  | c :: rest =>
    match digitVal c with
    | some d =>
      let (ds, r) := takeDigits rest
      some (d :: ds, r)
    | Option.none => Option.none
  | [] => Option.none

/-- A JSON number: optional `-`, integer part, optional fraction (digits
required), optional exponent (same grammar as a Python float exponent). -/
def jNum (cs : List Char) : Option (ℚ × List Char) :=
  let (sgn, cs1) : ℚ × List Char :=
    match cs with
    | '-' :: r => (-1, r)
    | r => (1, r)
  match jIntDigits cs1 with
  | Option.none => Option.none
  | some (ds, r1) =>
    match r1 with
    | '.' :: r2 =>
      let (fs, r3) := takeDigits r2
      if fs.isEmpty then Option.none
      else
        floatExpPart (sgn * ((digitsToNat ds : ℚ) + (digitsToNat fs : ℚ) / (10 : ℚ) ^ fs.length)) r3
    | _ => floatExpPart (sgn * (digitsToNat ds : ℚ)) r1

mutual

/-- One JSON value and the unconsumed remainder (fuelled recursive descent;
`jsonLoads` supplies fuel that cannot run out on its input). -/
def jVal : Nat → List Char → Option (PyVal × List Char)
  | 0, _ => Option.none
  | Nat.succ f, cs =>
    match skipWs cs with
    | 'n' :: 'u' :: 'l' :: 'l' :: r => some (PyVal.none, r)
    | 't' :: 'r' :: 'u' :: 'e' :: r => some (PyVal.bool true, r)
    | 'f' :: 'a' :: 'l' :: 's' :: 'e' :: r => some (PyVal.bool false, r)
    | '"' :: r => (jStrChars (r.length + 1) r).map (fun p => (PyVal.str (String.mk p.1), p.2))
    | '[' :: r =>
      match skipWs r with
      | ']' :: r2 => some (PyVal.list [], r2)
      | r2 => (jElems f r2).map (fun p => (PyVal.list p.1, p.2))
    | '\x7b' :: r =>
      match skipWs r with
      | '\x7d' :: r2 => some (PyVal.dict [], r2)
      | r2 => (jMembers f [] r2).map (fun p => (PyVal.dict p.1, p.2))
    | cs2 => (jNum cs2).map (fun p => (PyVal.num p.1, p.2))

/-- Comma-separated values of a non-empty JSON array up to `]`. -/
def jElems : Nat → List Char → Option (List PyVal × List Char)
  | 0, _ => Option.none
  | Nat.succ f, cs =>
    match jVal f cs with
    | Option.none => Option.none
    | some (v, r) =>
      match skipWs r with
      | ',' :: r2 => (jElems f r2).map (fun p => (v :: p.1, p.2))
      | ']' :: r2 => some ([v], r2)
      | _ => Option.none

/-- Members of a non-empty JSON object up to the closing brace, accumulated
with Python dict assignment (later duplicate keys overwrite in place). -/
def jMembers : Nat → List (String × PyVal) → List Char →
    Option (List (String × PyVal) × List Char)
  | 0, _, _ => Option.none
  | Nat.succ f, acc, cs =>
    match skipWs cs with
    | '"' :: r =>
      match jStrChars (r.length + 1) r with
      | Option.none => Option.none
      | some (kcs, r1) =>
        match skipWs r1 with
        | ':' :: r2 =>
          match jVal f r2 with
          | Option.none => Option.none
          | some (v, r3) =>
            match skipWs r3 with
            | ',' :: r4 => jMembers f (dictSet acc (String.mk kcs) v) r4
            | '\x7d' :: r4 => some (dictSet acc (String.mk kcs) v, r4)
            | _ => Option.none
        | _ => Option.none
    | _ => Option.none

end

/-- Python `json.loads`: one JSON value (any type, scalars included)
spanning the whole text up to trailing whitespace; `Option.none` is a raised
`json.JSONDecodeError`. -/
def jsonLoads (s : String) : Option PyVal :=
  match jVal (2 * s.length + 2) s.data with
  | some (v, r) =>
    match skipWs r with
    | [] => some v
    | _ => Option.none
  | Option.none => Option.none

/-! ### `json.dumps` (Python defaults: `ensure_ascii=True`,
separators `", "` and `": "`) -/

/-- Lowercase hexadecimal digit. -/
def hexDigit (n : Nat) : Char :=
  if n < 10 then Char.ofNat (48 + n) else Char.ofNat (87 + n)

/-- Four-digit lowercase hex, as in a `\uXXXX` escape. -/
def hex4 (n : Nat) : String :=
  String.mk [hexDigit (n / 4096 % 16), hexDigit (n / 256 % 16),
             hexDigit (n / 16 % 16), hexDigit (n % 16)]

/-- `json.dumps` escaping of one character: the two mandatory escapes, the
short control escapes, and `\uXXXX` (with surrogate pairs) for every other
character outside printable ASCII. -/
def escChar (c : Char) : String :=
  if c = '"' then "\\\""
  else if c = '\\' then "\\\\"
  else if c = '\n' then "\\n"
  else if c = '\r' then "\\r"
  else if c = '\t' then "\\t"
  else if c.toNat = 8 then "\\b"
  else if c.toNat = 12 then "\\f"
  else if c.toNat < 32 || 126 < c.toNat then
    if c.toNat < 65536 then "\\u" ++ hex4 c.toNat
    else
      "\\u" ++ hex4 (55296 + (c.toNat - 65536) / 1024) ++
      "\\u" ++ hex4 (56320 + (c.toNat - 65536) % 1024)
  else String.singleton c

/-- `json.dumps` escaping of a character list. -/
def escChars : List Char → List Char
  | [] => []
  | c :: cs => (escChar c).data ++ escChars cs

/-- Decimal digits of the fractional part of `q` (`0 ≤ q < 1`), with enough
fuel for every terminating decimal a parsed JSON number can produce. -/
def fracDigits : Nat → ℚ → List Char
  | 0, _ => []
  | Nat.succ f, q =>
    if q = 0 then []
    else
      let d : ℕ := (⌊q * 10⌋).toNat
      Char.ofNat (48 + d) :: fracDigits f (q * 10 - (d : ℚ))

/-- Decimal rendering of a number.  The model identifies Python ints and
floats in `ℚ`, so an integral value prints without Python's trailing `.0`;
a repeating expansion (unreachable from parsed JSON) is cut at 64 digits. -/
def ratDumps (q : ℚ) : String :=
  if q.den = 1 then toString q.num
  else
    (if q < 0 then "-" else "") ++ toString ⌊|q|⌋ ++ "." ++
    String.mk (fracDigits 64 (|q| - (⌊|q|⌋ : ℚ)))

mutual

/-- Characters of the dumped form of a value. -/
def dumpChars : PyVal → List Char
  | PyVal.none => "null".data
  | PyVal.bool b => if b then "true".data else "false".data
  | PyVal.num q => (ratDumps q).data
  | PyVal.str s => '"' :: (escChars s.data ++ ['"'])
  | PyVal.list xs => '[' :: (elemsChars xs ++ [']'])
  | PyVal.dict kvs => '\x7b' :: (membersChars kvs ++ ['\x7d'])

/-- Array elements joined by `", "`. -/
def elemsChars : List PyVal → List Char
  | [] => []
  | [x] => dumpChars x
  | x :: y :: xs => dumpChars x ++ (',' :: ' ' :: elemsChars (y :: xs))

/-- Object members `"key": value` joined by `", "`. -/
def membersChars : List (String × PyVal) → List Char
  | [] => []
  | [(k, v)] => ('"' :: (escChars k.data ++ ['"'])) ++ (':' :: ' ' :: dumpChars v)
  | (k, v) :: m :: kvs =>
    ('"' :: (escChars k.data ++ ['"'])) ++ (':' :: ' ' :: dumpChars v) ++
      (',' :: ' ' :: membersChars (m :: kvs))

end

/-- Python `json.dumps` of a value. -/
def jsonDumps (v : PyVal) : String := String.mk (dumpChars v)

/-! ### `quote_api.handler` (`src/backend/quote_api.py` lines 24-118) -/

/-- An uncaught Python exception escaping the handler (the embedded message
is informal metadata, not Python's exact wording). -/
inductive PyExc where
  | attributeError (msg : String)
  | typeError (msg : String)
deriving Repr, DecidableEq

/-- An API Gateway HTTP response object. -/
structure HttpResponse where
  statusCode : Nat
  headers : List (String × String)
  body : String
deriving Repr, DecidableEq

/-- `quote_api._response` (lines 99-118): fixed JSON/CORS headers and a
JSON-encoded body. -/
def _response (status : Nat) (body : PyVal) : HttpResponse :=
  { statusCode := status,
    headers := [("Content-Type", "application/json"),
                ("Access-Control-Allow-Origin", "*")],
    body := jsonDumps body }

/-- The `{"message": ...}` error payloads of `quote_api`. -/
def msgPayload (m : String) : PyVal :=
  PyVal.dict [("message", PyVal.str m)]

/-- The Step Functions client: `start_sync_execution(stateMachineArn, input)`
either raises (`Except.error` carries `str(exc)`) or returns a response whose
optional `output` field is a string.  `boto3.client` itself and the network
are folded into this one capability. -/
def SfCall : Type := String → String → Except String (Option String)

/-- Line 49: `body = event.get("body") or "{}"`. -/
def effBody (event : List (String × PyVal)) : PyVal :=
  let b := dictGet event "body"
  if pyTruthy b then b else PyVal.str "\x7b\x7d"

/-- Line 59 condition: `not name or not email or value is None`. -/
def missingFields (d : List (String × PyVal)) : Bool :=
  !pyTruthy (dictGet d "name") || !pyTruthy (dictGet d "email") ||
    pyIsNone (dictGet d "value")

/-- Lines 68-72: the `{name, email, value}` payload handed to the workflow. -/
def inputPayload (d : List (String × PyVal)) : PyVal :=
  PyVal.dict [("name", dictGet d "name"), ("email", dictGet d "email"),
              ("value", dictGet d "value")]

/-- `quote_api.handler` after the inbound metric emission (lines 48-96).
Every `return` statement maps to an `Except.ok`; an uncaught exception —
`json.loads` on a non-string truthy body (`TypeError`), or `.get` on parsed
JSON that is not an object (`AttributeError`) — maps to `Except.error`. -/
def handleRequest (sf : SfCall) (env : Option String)
    (event : List (String × PyVal)) : Except PyExc HttpResponse :=
  match effBody event with
  | PyVal.str bs =>
    (match jsonLoads bs with
     | Option.none => Except.ok (_response 400 (msgPayload "Invalid JSON payload"))
     | some data =>
       match data with
       | PyVal.dict d =>
         if missingFields d then
           Except.ok (_response 400 (msgPayload "Missing name, email or value"))
         else
           match env with
           | Option.none => Except.ok (_response 500 (msgPayload "Server not configured"))
           | some arn =>
             if arn = "" then
               Except.ok (_response 500 (msgPayload "Server not configured"))
             else
               match sf arn (jsonDumps (inputPayload d)) with
               | Except.error exc =>
                 Except.ok (_response 500 (msgPayload ("Failed to start workflow: " ++ exc)))
               | Except.ok outputField =>
                 match outputField with
                 | Option.none => Except.ok (_response 500 (msgPayload "No output from workflow"))
                 | some os =>
                   if os = "" then
                     Except.ok (_response 500 (msgPayload "No output from workflow"))
                   else
                     match jsonLoads os with
                     | Option.none => Except.ok (_response 500 (msgPayload "Malformed workflow output"))
                     | some od =>
                       match od with
                       | PyVal.dict odd =>
                         if pyIsNone (dictGet odd "quote") then
                           Except.ok (_response 500 (msgPayload "Workflow did not return a quote"))
                         else
                           Except.ok (_response 200 (PyVal.dict [("quote", dictGet odd "quote")]))
                       | _ => Except.error (PyExc.attributeError "output object has no attribute get")
       | _ => Except.error (PyExc.attributeError "body object has no attribute get"))
  | _ => Except.error (PyExc.typeError "the JSON object must be str, not the given type")

/-- `quote_api.handler` (lines 24-96): the inbound `quote.request` metric
probe (lines 42-46), then the request processing. -/
def apiHandler (em : Option MetricEmit) (sf : SfCall) (env : Option String)
    (event : List (String × PyVal)) : Except PyExc HttpResponse :=
  let _m : Unit := metricProbe em "quote.request" 1 ["app:jewelers-mutual-clone"]
  handleRequest sf env event

/-! ### Path predicates and path lemmas for `handleRequest` -/

/-- The effective body is a string that fails JSON parsing. -/
def BodyUnparsable (event : List (String × PyVal)) (bs : String) : Prop :=
  effBody event = PyVal.str bs ∧ jsonLoads bs = Option.none

/-- The effective body is a string parsing to a JSON object `d`. -/
def ParsedObject (event : List (String × PyVal)) (bs : String)
    (d : List (String × PyVal)) : Prop :=
  effBody event = PyVal.str bs ∧ jsonLoads bs = some (PyVal.dict d)

/-- Validation passed and a non-empty workflow identifier `arn` is
configured, so the handler reaches the workflow invocation. -/
def WorkflowReached (env : Option String) (event : List (String × PyVal))
    (bs : String) (d : List (String × PyVal)) (arn : String) : Prop :=
  ParsedObject event bs d ∧ missingFields d = false ∧ env = some arn ∧ arn ≠ ""

theorem handle_invalid (sf : SfCall) (env : Option String)
    (event : List (String × PyVal)) (bs : String)
    (hb : effBody event = PyVal.str bs) (hl : jsonLoads bs = Option.none) :
    handleRequest sf env event =
      Except.ok (_response 400 (msgPayload "Invalid JSON payload")) := by
  unfold handleRequest
  rw [hb]
  simp only [hl]

theorem handle_missing (sf : SfCall) (env : Option String)
    (event : List (String × PyVal)) (bs : String) (d : List (String × PyVal))
    (hb : effBody event = PyVal.str bs)
    (hl : jsonLoads bs = some (PyVal.dict d)) (hm : missingFields d = true) :
    handleRequest sf env event =
      Except.ok (_response 400 (msgPayload "Missing name, email or value")) := by
  unfold handleRequest
  rw [hb]
  simp only [hl, hm, if_true]

theorem handle_unconfigured (sf : SfCall) (env : Option String)
    (event : List (String × PyVal)) (bs : String) (d : List (String × PyVal))
    (hb : effBody event = PyVal.str bs)
    (hl : jsonLoads bs = some (PyVal.dict d)) (hm : missingFields d = false)
    (henv : env = Option.none ∨ env = some "") :
    handleRequest sf env event =
      Except.ok (_response 500 (msgPayload "Server not configured")) := by
  unfold handleRequest
  rw [hb]
  rcases henv with henv | henv <;> simp [hl, hm, henv]

theorem handle_nooutput (sf : SfCall) (env : Option String)
    (event : List (String × PyVal)) (bs : String) (d : List (String × PyVal))
    (arn : String) (hw : WorkflowReached env event bs d arn)
    (hsf : sf arn (jsonDumps (inputPayload d)) = Except.ok Option.none ∨
           sf arn (jsonDumps (inputPayload d)) = Except.ok (some "")) :
    handleRequest sf env event =
      Except.ok (_response 500 (msgPayload "No output from workflow")) := by
  obtain ⟨⟨hb, hl⟩, hm, henv, harn⟩ := hw
  unfold handleRequest
  rw [hb]
  rcases hsf with hsf | hsf <;> simp [hl, hm, henv, harn, hsf]

theorem handle_malformed (sf : SfCall) (env : Option String)
    (event : List (String × PyVal)) (bs : String) (d : List (String × PyVal))
    (arn : String) (os : String) (hw : WorkflowReached env event bs d arn)
    (hsf : sf arn (jsonDumps (inputPayload d)) = Except.ok (some os))
    (hos : os ≠ "") (hlo : jsonLoads os = Option.none) :
    handleRequest sf env event =
      Except.ok (_response 500 (msgPayload "Malformed workflow output")) := by
  obtain ⟨⟨hb, hl⟩, hm, henv, harn⟩ := hw
  unfold handleRequest
  rw [hb]
  simp [hl, hm, henv, harn, hsf, hos, hlo]

/-- Complete enumeration of the responses `handleRequest` can return: every
`Except.ok` result lies on exactly one of the eight return paths of
`quote_api.handler`, with the path conditions recorded. -/
theorem handleRequest_ok_split (sf : SfCall) (env : Option String)
    (event : List (String × PyVal)) (r : HttpResponse)
    (h : handleRequest sf env event = Except.ok r) :
    (∃ bs, BodyUnparsable event bs ∧
      r = _response 400 (msgPayload "Invalid JSON payload")) ∨
    (∃ bs d, ParsedObject event bs d ∧ missingFields d = true ∧
      r = _response 400 (msgPayload "Missing name, email or value")) ∨
    (∃ bs d, ParsedObject event bs d ∧ missingFields d = false ∧
      (env = Option.none ∨ env = some "") ∧
      r = _response 500 (msgPayload "Server not configured")) ∨
    (∃ bs d arn e, WorkflowReached env event bs d arn ∧
      sf arn (jsonDumps (inputPayload d)) = Except.error e ∧
      r = _response 500 (msgPayload ("Failed to start workflow: " ++ e))) ∨
    (∃ bs d arn, WorkflowReached env event bs d arn ∧
      (sf arn (jsonDumps (inputPayload d)) = Except.ok Option.none ∨
       sf arn (jsonDumps (inputPayload d)) = Except.ok (some "")) ∧
      r = _response 500 (msgPayload "No output from workflow")) ∨
    (∃ bs d arn os, WorkflowReached env event bs d arn ∧
      sf arn (jsonDumps (inputPayload d)) = Except.ok (some os) ∧ os ≠ "" ∧
      jsonLoads os = Option.none ∧
      r = _response 500 (msgPayload "Malformed workflow output")) ∨
    (∃ bs d arn os od, WorkflowReached env event bs d arn ∧
      sf arn (jsonDumps (inputPayload d)) = Except.ok (some os) ∧ os ≠ "" ∧
      jsonLoads os = some (PyVal.dict od) ∧ pyIsNone (dictGet od "quote") = true ∧
      r = _response 500 (msgPayload "Workflow did not return a quote")) ∨
    (∃ bs d arn os od, WorkflowReached env event bs d arn ∧
      sf arn (jsonDumps (inputPayload d)) = Except.ok (some os) ∧ os ≠ "" ∧
      jsonLoads os = some (PyVal.dict od) ∧ pyIsNone (dictGet od "quote") = false ∧
      r = _response 200 (PyVal.dict [("quote", dictGet od "quote")])) := by
  unfold handleRequest at h
  split at h
  next bs hb =>
    split at h
    next hload =>
      cases h
      exact Or.inl ⟨bs, ⟨hb, hload⟩, rfl⟩
    next data hload =>
      split at h
      next d =>
        split at h
        next hmiss =>
          cases h
          exact Or.inr (Or.inl ⟨bs, d, ⟨hb, hload⟩, hmiss, rfl⟩)
        next hmiss =>
          replace hmiss : missingFields d = false := by
            simpa using hmiss
          split at h
          next henv =>
            cases h
            exact Or.inr (Or.inr (Or.inl ⟨bs, d, ⟨hb, hload⟩, hmiss, Or.inl rfl, rfl⟩))
          next arn =>
            split at h
            next harn =>
              cases h
              subst harn
              exact Or.inr (Or.inr (Or.inl ⟨bs, d, ⟨hb, hload⟩, hmiss, Or.inr rfl, rfl⟩))
            next harn =>
              have hw : WorkflowReached (some arn) event bs d arn :=
                ⟨⟨hb, hload⟩, hmiss, rfl, harn⟩
              split at h
              next e hsf =>
                cases h
                exact Or.inr (Or.inr (Or.inr (Or.inl ⟨bs, d, arn, e, hw, hsf, rfl⟩)))
              next out hsf =>
                split at h
                next =>
                  cases h
                  exact Or.inr (Or.inr (Or.inr (Or.inr (Or.inl
                    ⟨bs, d, arn, hw, Or.inl hsf, rfl⟩))))
                next os =>
                  split at h
                  next hos =>
                    cases h
                    subst hos
                    exact Or.inr (Or.inr (Or.inr (Or.inr (Or.inl
                      ⟨bs, d, arn, hw, Or.inr hsf, rfl⟩))))
                  next hos =>
                    split at h
                    next hlo =>
                      cases h
                      exact Or.inr (Or.inr (Or.inr (Or.inr (Or.inr (Or.inl
                        ⟨bs, d, arn, os, hw, hsf, hos, hlo, rfl⟩)))))
                    next od hlo =>
                      split at h
                      next odd =>
                        split at h
                        next hq =>
                          cases h
                          exact Or.inr (Or.inr (Or.inr (Or.inr (Or.inr (Or.inr (Or.inl
                            ⟨bs, d, arn, os, odd, hw, hsf, hos, hlo, hq, rfl⟩))))))
                        next hq =>
                          cases h
                          replace hq : pyIsNone (dictGet odd "quote") = false := by
                            simpa using hq
                          exact Or.inr (Or.inr (Or.inr (Or.inr (Or.inr (Or.inr (Or.inr
                            ⟨bs, d, arn, os, odd, hw, hsf, hos, hlo, hq, rfl⟩))))))
                      next => exact absurd h (by simp)
      next => exact absurd h (by simp)
  next => exact absurd h (by simp)

/-! ### Quote Calculator lemmas and claims -/

theorem roundHalfEven_nonneg (q : ℚ) (h : 0 ≤ q) : 0 ≤ roundHalfEven q := by
  unfold roundHalfEven
  have hf : (0 : ℤ) ≤ ⌊q⌋ := Int.floor_nonneg.mpr h
  dsimp only
  split
  · exact hf
  · split
    · omega
    · split <;> omega

theorem pyRound2_nonneg (q : ℚ) (h : 0 ≤ q) : 0 ≤ pyRound2 q := by
  unfold pyRound2
  have h1 : (0 : ℚ) ≤ q * 100 := by positivity
  have h2 : (0 : ℤ) ≤ roundHalfEven (q * 100) := roundHalfEven_nonneg _ h1
  have h3 : (0 : ℚ) ≤ (roundHalfEven (q * 100) : ℚ) := by exact_mod_cast h2
  positivity

/-- Closed form of the Quote Calculator: for every event it returns
`{"quote": round(float(value) * 0.01, 2)}` with `0.0` substituted when the
conversion fails. -/
theorem computeQuote_eq (em : Option MetricEmit) (event : List (String × PyVal)) :
    computeQuoteHandler em event =
      PyVal.dict [("quote",
        PyVal.num (pyRound2 ((pyFloat (dictGet event "value")).getD 0 * (1 / 100))))] := by
  unfold computeQuoteHandler
  cases hpf : pyFloat (dictGet event "value") <;> simp [hpf]

/-- Claim C2 counterexample: on `value = -100` the Quote Calculator returns
`quote = -1.0`, a negative number, so the quote is not non-negative for every
input event. -/
theorem computeQuote_negative_counterexample :
    computeQuoteHandler Option.none [("value", PyVal.num (-100))] =
      PyVal.dict [("quote", PyVal.num (-1))] ∧ ((-1 : ℚ) < 0) :=
  ⟨rfl, by norm_num⟩

/-- Claim C2 (amended): the `quote` field is `round(float(value) * 0.01, 2)`
(with `0.0` substituted on conversion failure); it is non-negative whenever
the converted value is non-negative — in particular on every conversion
failure — but a negative `value` yields a negative quote, not a non-negative
one. -/
theorem computeQuote_nonneg_for_nonneg (em : Option MetricEmit)
    (event : List (String × PyVal)) :
    computeQuoteHandler em event =
      PyVal.dict [("quote",
        PyVal.num (pyRound2 ((pyFloat (dictGet event "value")).getD 0 * (1 / 100))))] ∧
    (0 ≤ (pyFloat (dictGet event "value")).getD 0 →
      0 ≤ pyRound2 ((pyFloat (dictGet event "value")).getD 0 * (1 / 100))) :=
  ⟨computeQuote_eq em event,
   fun h => pyRound2_nonneg _ (by positivity)⟩

theorem computeQuote_nonneg_for_nonneg_witness :
    (0 : ℚ) ≤ (pyFloat (dictGet [("value", PyVal.num 5000)] "value")).getD 0 ∧
    0 ≤ pyRound2 ((pyFloat (dictGet [("value", PyVal.num 5000)] "value")).getD 0 * (1 / 100)) :=
  ⟨by decide,
   (computeQuote_nonneg_for_nonneg Option.none [("value", PyVal.num 5000)]).2 (by decide)⟩

/-- Claim C3: whenever `value` converts to a numeric `v ≥ 0` the Quote
Calculator returns `{"quote": round(v * 0.01, 2)}`; concretely `value = 5000`
yields `quote = 50.0` and `value = 999` yields `quote = 9.99`. -/
theorem computeQuote_formula (em : Option MetricEmit)
    (event : List (String × PyVal)) (v : ℚ)
    (hv : pyFloat (dictGet event "value") = some v) (hnn : 0 ≤ v) :
    computeQuoteHandler em event =
      PyVal.dict [("quote", PyVal.num (pyRound2 (v * (1 / 100))))] ∧
    computeQuoteHandler em [("value", PyVal.num 5000)] =
      PyVal.dict [("quote", PyVal.num 50)] ∧
    computeQuoteHandler em [("value", PyVal.num 999)] =
      PyVal.dict [("quote", PyVal.num (999 / 100))] := by
  refine ⟨?_, ?_, ?_⟩
  · rw [computeQuote_eq em event, hv]
    rfl
  · rw [computeQuote_eq]
    congr 1
  · rw [computeQuote_eq]
    congr 1

theorem computeQuote_formula_witness :
    computeQuoteHandler Option.none [("value", PyVal.num 5000)] =
      PyVal.dict [("quote", PyVal.num (pyRound2 (5000 * (1 / 100))))] ∧
    computeQuoteHandler Option.none [("value", PyVal.num 5000)] =
      PyVal.dict [("quote", PyVal.num 50)] ∧
    computeQuoteHandler Option.none [("value", PyVal.num 999)] =
      PyVal.dict [("quote", PyVal.num (999 / 100))] :=
  computeQuote_formula Option.none [("value", PyVal.num 5000)] 5000 rfl (by norm_num)

/-- Claim C4: the Quote Calculator never fails — it returns a
`{"quote": _}` payload for every event — and whenever the `value` is
missing, of an inconvertible type or a non-numeric string (numeric
conversion fails) it substitutes `0.0`, returning `{"quote": 0.0}`. -/
theorem computeQuote_never_fails (em : Option MetricEmit)
    (event : List (String × PyVal)) :
    (∃ q : ℚ, computeQuoteHandler em event = PyVal.dict [("quote", PyVal.num q)]) ∧
    (pyFloat (dictGet event "value") = Option.none →
      computeQuoteHandler em event = PyVal.dict [("quote", PyVal.num 0)]) := by
  constructor
  · exact ⟨_, computeQuote_eq em event⟩
  · intro hpf
    rw [computeQuote_eq em event, hpf]
    congr 1

theorem computeQuote_never_fails_witness :
    pyFloat (dictGet [("value", PyVal.str "abc")] "value") = Option.none ∧
    computeQuoteHandler Option.none [("value", PyVal.str "abc")] =
      PyVal.dict [("quote", PyVal.num 0)] :=
  ⟨rfl, (computeQuote_never_fails Option.none [("value", PyVal.str "abc")]).2 rfl⟩

/-- Claim C5: neither handler's return value depends on the observability
backend — with the emitter absent, raising on every call, or succeeding,
both handlers return exactly what they return with no backend, and no
emission outcome escapes to the caller. -/
theorem metric_noninterference :
    (∀ (em : Option MetricEmit) (event : List (String × PyVal)),
      computeQuoteHandler em event = computeQuoteHandler Option.none event) ∧
    (∀ (em : Option MetricEmit) (sf : SfCall) (env : Option String)
      (event : List (String × PyVal)),
      apiHandler em sf env event = apiHandler Option.none sf env event) :=
  ⟨fun _ _ => rfl, fun _ _ _ _ => rfl⟩

/-! ### Uniqueness of path conditions and response distinctness -/

theorem parsedObject_unique {event : List (String × PyVal)} {bs bs' : String}
    {d d' : List (String × PyVal)} (h : ParsedObject event bs d)
    (h' : ParsedObject event bs' d') : bs = bs' ∧ d = d' := by
  obtain ⟨hb, hl⟩ := h
  obtain ⟨hb', hl'⟩ := h'
  rw [hb] at hb'
  injection hb' with hbs
  subst hbs
  rw [hl] at hl'
  injection hl' with hd
  injection hd with hd2
  exact ⟨rfl, hd2⟩

theorem unparsable_not_parsed {event : List (String × PyVal)} {bs bs' : String}
    {d : List (String × PyVal)} (h : BodyUnparsable event bs)
    (h' : ParsedObject event bs' d) : False := by
  obtain ⟨hb, hl⟩ := h
  obtain ⟨hb', hl'⟩ := h'
  rw [hb] at hb'
  injection hb' with hbs
  subst hbs
  rw [hl] at hl'
  cases hl'

theorem workflowReached_unique {env : Option String}
    {event : List (String × PyVal)} {bs bs' : String}
    {d d' : List (String × PyVal)} {arn arn' : String}
    (h : WorkflowReached env event bs d arn)
    (h' : WorkflowReached env event bs' d' arn') :
    bs = bs' ∧ d = d' ∧ arn = arn' := by
  obtain ⟨hpo, hm, henv, harn⟩ := h
  obtain ⟨hpo', hm', henv', harn'⟩ := h'
  obtain ⟨h1, h2⟩ := parsedObject_unique hpo hpo'
  refine ⟨h1, h2, ?_⟩
  rw [henv] at henv'
  injection henv'

theorem resp_status (s : Nat) (p : PyVal) : (_response s p).statusCode = s := rfl

theorem resp_ne {s t : Nat} (p q : PyVal) (h : s ≠ t) :
    _response s p ≠ _response t q :=
  fun he => h (by rw [← resp_status s p, he, resp_status])

theorem escChars_append (a b : List Char) :
    escChars (a ++ b) = escChars a ++ escChars b := by
  induction a with
  | nil => rfl
  | cons c cs ih => simp [escChars, ih]

/-- Equal `{"message": _}` responses have equal escaped message texts. -/
theorem response_msg_inj {s : Nat} {a b : String}
    (h : _response s (msgPayload a) = _response s (msgPayload b)) :
    escChars a.data = escChars b.data := by
  have h2 := congrArg HttpResponse.body h
  have h3 := congrArg String.data h2
  simp only [_response, jsonDumps] at h3
  simp only [msgPayload, dumpChars, membersChars] at h3
  rw [List.cons.injEq] at h3
  have h4 := List.append_cancel_right h3.2
  have h5 := List.append_cancel_left h4
  rw [List.cons.injEq] at h5
  have h6 := h5.2
  rw [List.cons.injEq] at h6
  have h7 := h6.2
  rw [List.cons.injEq] at h7
  exact List.append_cancel_right h7.2

theorem failedResp_ne_noOutput (e : String) :
    _response 500 (msgPayload ("Failed to start workflow: " ++ e)) ≠
      _response 500 (msgPayload "No output from workflow") := by
  intro h
  have hx := response_msg_inj h
  rw [String.data_append, escChars_append] at hx
  rw [show escChars "Failed to start workflow: ".data = "Failed to start workflow: ".data from by decide,
      show escChars "No output from workflow".data = "No output from workflow".data from by decide] at hx
  rw [show "Failed to start workflow: ".data = 'F' :: "ailed to start workflow: ".data from rfl,
      show "No output from workflow".data = 'N' :: "o output from workflow".data from rfl] at hx
  simp at hx

theorem failedResp_ne_malformed (e : String) :
    _response 500 (msgPayload ("Failed to start workflow: " ++ e)) ≠
      _response 500 (msgPayload "Malformed workflow output") := by
  intro h
  have hx := response_msg_inj h
  rw [String.data_append, escChars_append] at hx
  rw [show escChars "Failed to start workflow: ".data = "Failed to start workflow: ".data from by decide,
      show escChars "Malformed workflow output".data = "Malformed workflow output".data from by decide] at hx
  rw [show "Failed to start workflow: ".data = 'F' :: "ailed to start workflow: ".data from rfl,
      show "Malformed workflow output".data = 'M' :: "alformed workflow output".data from rfl] at hx
  simp at hx

/-! ### Concrete fixtures for witnesses and counterexamples -/

/-- A workflow stub returning `{"quote": 50.0}`. -/
def sfOk50 : SfCall := fun _ _ => Except.ok (some "\x7b\"quote\": 50.0\x7d")

/-- A valid quote request event. -/
def evValid : List (String × PyVal) :=
  [("body", PyVal.str
    "\x7b\"name\": \"Alice\", \"email\": \"alice@example.com\", \"value\": 5000\x7d")]

/-- An event whose body is not JSON. -/
def evBadJson : List (String × PyVal) := [("body", PyVal.str "not json")]

/-- An event whose body lacks the `value` field. -/
def evNoValue : List (String × PyVal) :=
  [("body", PyVal.str "\x7b\"name\": \"Alice\", \"email\": \"a@x.com\"\x7d")]

/-- Claim C1: the API handler does not always reach one of the three
terminal responses.  On a request body that is valid JSON but not an object
(`"[]"`), `data.get("name")` raises an uncaught `AttributeError` instead of
returning any response; likewise a workflow output that is valid JSON but
not an object (`"[1]"`) makes `output_data.get("quote")` raise. -/
theorem apiHandler_nonobject_raises :
    apiHandler Option.none sfOk50 (some "arn:x") [("body", PyVal.str "[]")] =
      Except.error (PyExc.attributeError "body object has no attribute get") ∧
    apiHandler Option.none (fun _ _ => Except.ok (some "[1]")) (some "arn:x") evValid =
      Except.error (PyExc.attributeError "output object has no attribute get") :=
  ⟨rfl, rfl⟩

/-- The three C6 conjuncts hold for any non-400 response once the body has
parsed to an object that passed validation. -/
theorem c6_non400 {event : List (String × PyVal)} {bs : String}
    {d : List (String × PyVal)} (hpo : ParsedObject event bs d)
    (hm : missingFields d = false) (s : Nat) (p : PyVal) (hs : s ≠ 400) :
    ((_response s p).statusCode = 400 ↔
      (_response s p = _response 400 (msgPayload "Invalid JSON payload") ∨
       _response s p = _response 400 (msgPayload "Missing name, email or value"))) ∧
    ((_response s p = _response 400 (msgPayload "Invalid JSON payload")) ↔
      ∃ bs1, BodyUnparsable event bs1) ∧
    ((_response s p = _response 400 (msgPayload "Missing name, email or value")) ↔
      ∃ bs1 d1, ParsedObject event bs1 d1 ∧ missingFields d1 = true) := by
  refine ⟨⟨fun h => absurd ((resp_status s p) ▸ h) hs, ?_⟩,
          ⟨fun he => absurd he (resp_ne _ _ hs), ?_⟩,
          ⟨fun he => absurd he (resp_ne _ _ hs), ?_⟩⟩
  · rintro (he | he) <;> exact absurd he (resp_ne _ _ hs)
  · rintro ⟨bs1, hbu⟩
    exact (unparsable_not_parsed hbu hpo).elim
  · rintro ⟨bs1, d1, hpo1, hm1⟩
    obtain ⟨-, hd⟩ := parsedObject_unique hpo hpo1
    rw [← hd, hm] at hm1
    cases hm1

/-- Claim C6: among the responses the API handler actually returns, status
400 appears exactly twice — `"Invalid JSON payload"` precisely when the
effective body fails JSON parsing, and `"Missing name, email or value"`
precisely when it parses to an object with a falsy `name` or `email` or an
absent/null `value` — and no other path yields a 400. -/
theorem apiHandler_400_iff (em : Option MetricEmit) (sf : SfCall)
    (env : Option String) (event : List (String × PyVal)) (r : HttpResponse)
    (h : apiHandler em sf env event = Except.ok r) :
    (r.statusCode = 400 ↔
      (r = _response 400 (msgPayload "Invalid JSON payload") ∨
       r = _response 400 (msgPayload "Missing name, email or value"))) ∧
    ((r = _response 400 (msgPayload "Invalid JSON payload")) ↔
      ∃ bs, BodyUnparsable event bs) ∧
    ((r = _response 400 (msgPayload "Missing name, email or value")) ↔
      ∃ bs d, ParsedObject event bs d ∧ missingFields d = true) := by
  have h' : handleRequest sf env event = Except.ok r := h
  rcases handleRequest_ok_split sf env event r h' with
    ⟨bs, hbu, hr⟩ | ⟨bs, d, hpo, hm, hr⟩ | ⟨bs, d, hpo, hm, henv, hr⟩ |
    ⟨bs, d, arn, e, hw, hsf, hr⟩ | ⟨bs, d, arn, hw, hsf, hr⟩ |
    ⟨bs, d, arn, os, hw, hsf, hos, hlo, hr⟩ |
    ⟨bs, d, arn, os, od, hw, hsf, hos, hlo, hq, hr⟩ |
    ⟨bs, d, arn, os, od, hw, hsf, hos, hlo, hq, hr⟩
  · subst hr
    refine ⟨⟨fun _ => Or.inl rfl, fun _ => rfl⟩, ⟨fun _ => ⟨bs, hbu⟩, fun _ => rfl⟩, ?_⟩
    constructor
    · intro he
      exact absurd he (by decide)
    · rintro ⟨bs1, d1, hpo1, hm1⟩
      exact (unparsable_not_parsed hbu hpo1).elim
  · subst hr
    refine ⟨⟨fun _ => Or.inr rfl, fun _ => rfl⟩, ?_, ⟨fun _ => ⟨bs, d, hpo, hm⟩, fun _ => rfl⟩⟩
    constructor
    · intro he
      exact absurd he (by decide)
    · rintro ⟨bs1, hbu1⟩
      exact (unparsable_not_parsed hbu1 hpo).elim
  · subst hr
    exact c6_non400 hpo hm 500 _ (by decide)
  · subst hr
    exact c6_non400 hw.1 hw.2.1 500 _ (by decide)
  · subst hr
    exact c6_non400 hw.1 hw.2.1 500 _ (by decide)
  · subst hr
    exact c6_non400 hw.1 hw.2.1 500 _ (by decide)
  · subst hr
    exact c6_non400 hw.1 hw.2.1 500 _ (by decide)
  · subst hr
    exact c6_non400 hw.1 hw.2.1 200 _ (by decide)

theorem apiHandler_400_iff_witness :
    (_response 400 (msgPayload "Invalid JSON payload")).statusCode = 400 ↔
      (_response 400 (msgPayload "Invalid JSON payload") =
        _response 400 (msgPayload "Invalid JSON payload") ∨
       _response 400 (msgPayload "Invalid JSON payload") =
        _response 400 (msgPayload "Missing name, email or value")) :=
  (apiHandler_400_iff Option.none sfOk50 Option.none evBadJson
    (_response 400 (msgPayload "Invalid JSON payload")) rfl).1

/-- Claim C7: the workflow identifier is consulted only after body parsing
and field validation succeed — with no identifier configured, a valid body
yields 500 "Server not configured", while unparsable or incomplete bodies
still receive their 400 responses. -/
theorem apiHandler_env_after_validation (em : Option MetricEmit) (sf : SfCall)
    (event : List (String × PyVal)) :
    (∀ bs d, effBody event = PyVal.str bs → jsonLoads bs = some (PyVal.dict d) →
      missingFields d = false →
      apiHandler em sf Option.none event =
        Except.ok (_response 500 (msgPayload "Server not configured"))) ∧
    (∀ bs, effBody event = PyVal.str bs → jsonLoads bs = Option.none →
      apiHandler em sf Option.none event =
        Except.ok (_response 400 (msgPayload "Invalid JSON payload"))) ∧
    (∀ bs d, effBody event = PyVal.str bs → jsonLoads bs = some (PyVal.dict d) →
      missingFields d = true →
      apiHandler em sf Option.none event =
        Except.ok (_response 400 (msgPayload "Missing name, email or value"))) :=
  ⟨fun bs d hb hl hm =>
     handle_unconfigured sf Option.none event bs d hb hl hm (Or.inl rfl),
   fun bs hb hl => handle_invalid sf Option.none event bs hb hl,
   fun bs d hb hl hm => handle_missing sf Option.none event bs d hb hl hm⟩

theorem apiHandler_env_after_validation_witness :
    apiHandler Option.none sfOk50 Option.none evValid =
      Except.ok (_response 500 (msgPayload "Server not configured")) :=
  (apiHandler_env_after_validation Option.none sfOk50 evValid).1 _ _ rfl rfl rfl

/-- Claim C9: every response the API handler returns carries one of the
status codes 200, 400 or 500, the fixed `Content-Type: application/json`
and wildcard CORS headers, and a body JSON-encoding `{"quote": _}` on 200
and `{"message": _}` on 400/500. -/
theorem apiHandler_response_shape (em : Option MetricEmit) (sf : SfCall)
    (env : Option String) (event : List (String × PyVal)) (r : HttpResponse)
    (h : apiHandler em sf env event = Except.ok r) :
    (r.statusCode = 200 ∨ r.statusCode = 400 ∨ r.statusCode = 500) ∧
    r.headers = [("Content-Type", "application/json"),
                 ("Access-Control-Allow-Origin", "*")] ∧
    ((r.statusCode = 200 ∧ ∃ q, r.body = jsonDumps (PyVal.dict [("quote", q)])) ∨
     ((r.statusCode = 400 ∨ r.statusCode = 500) ∧
      ∃ m, r.body = jsonDumps (msgPayload m))) := by
  have h' : handleRequest sf env event = Except.ok r := h
  rcases handleRequest_ok_split sf env event r h' with
    ⟨bs, hbu, hr⟩ | ⟨bs, d, hpo, hm, hr⟩ | ⟨bs, d, hpo, hm, henv, hr⟩ |
    ⟨bs, d, arn, e, hw, hsf, hr⟩ | ⟨bs, d, arn, hw, hsf, hr⟩ |
    ⟨bs, d, arn, os, hw, hsf, hos, hlo, hr⟩ |
    ⟨bs, d, arn, os, od, hw, hsf, hos, hlo, hq, hr⟩ |
    ⟨bs, d, arn, os, od, hw, hsf, hos, hlo, hq, hr⟩ <;> subst hr
  · exact ⟨Or.inr (Or.inl rfl), rfl, Or.inr ⟨Or.inl rfl, _, rfl⟩⟩
  · exact ⟨Or.inr (Or.inl rfl), rfl, Or.inr ⟨Or.inl rfl, _, rfl⟩⟩
  · exact ⟨Or.inr (Or.inr rfl), rfl, Or.inr ⟨Or.inr rfl, _, rfl⟩⟩
  · exact ⟨Or.inr (Or.inr rfl), rfl, Or.inr ⟨Or.inr rfl, _, rfl⟩⟩
  · exact ⟨Or.inr (Or.inr rfl), rfl, Or.inr ⟨Or.inr rfl, _, rfl⟩⟩
  · exact ⟨Or.inr (Or.inr rfl), rfl, Or.inr ⟨Or.inr rfl, _, rfl⟩⟩
  · exact ⟨Or.inr (Or.inr rfl), rfl, Or.inr ⟨Or.inr rfl, _, rfl⟩⟩
  · exact ⟨Or.inl rfl, rfl, Or.inl ⟨rfl, _, rfl⟩⟩

theorem apiHandler_response_shape_witness :
    (_response 400 (msgPayload "Invalid JSON payload")).statusCode = 200 ∨
    (_response 400 (msgPayload "Invalid JSON payload")).statusCode = 400 ∨
    (_response 400 (msgPayload "Invalid JSON payload")).statusCode = 500 :=
  (apiHandler_response_shape Option.none sfOk50 Option.none evBadJson
    (_response 400 (msgPayload "Invalid JSON payload")) rfl).1

/-- Claim C10: an absent, null or empty-string `body` is replaced by the
string `"{}"`, which parses to the empty object, so the handler does not
return the invalid-JSON 400 but proceeds to field validation and returns
400 "Missing name, email or value". -/
theorem apiHandler_default_body (em : Option MetricEmit) (sf : SfCall)
    (env : Option String) (event : List (String × PyVal))
    (hb : dictGet event "body" = PyVal.none ∨ dictGet event "body" = PyVal.str "") :
    effBody event = PyVal.str "\x7b\x7d" ∧
    apiHandler em sf env event =
      Except.ok (_response 400 (msgPayload "Missing name, email or value")) := by
  have he : effBody event = PyVal.str "\x7b\x7d" := by
    unfold effBody
    rcases hb with hb | hb <;> rw [hb] <;> rfl
  exact ⟨he, handle_missing sf env event _ [] he rfl rfl⟩

theorem apiHandler_default_body_witness :
    effBody [("body", PyVal.none)] = PyVal.str "\x7b\x7d" ∧
    apiHandler Option.none sfOk50 (some "arn:x") [("body", PyVal.none)] =
      Except.ok (_response 400 (msgPayload "Missing name, email or value")) :=
  apiHandler_default_body Option.none sfOk50 (some "arn:x")
    [("body", PyVal.none)] (Or.inl rfl)

/-- A workflow stub whose response carries a present but empty output. -/
def sfEmptyOut : SfCall := fun _ _ => Except.ok (some "")

/-- Claim C8 counterexample: with the workflow returning a present but empty
`output` string (which is a JSON parse failure, as the third conjunct
records), the handler answers 500 "No output from workflow" — not the
"Malformed workflow output" that the claim requires for a present output
that fails to parse. -/
theorem apiHandler_empty_output_counterexample :
    apiHandler Option.none sfEmptyOut (some "arn:x") evValid =
      Except.ok (_response 500 (msgPayload "No output from workflow")) ∧
    (some "" : Option String) ≠ Option.none ∧
    jsonLoads "" = Option.none :=
  ⟨rfl, by simp, rfl⟩

/-- Claim C8 (amended): after a successful invocation the handler returns
500 "No output from workflow" exactly when the response's output field is
absent or the empty string, and 500 "Malformed workflow output" exactly when
the output is present, non-empty, and fails to parse as JSON. -/
theorem apiHandler_output_500_iff (em : Option MetricEmit) (sf : SfCall)
    (env : Option String) (event : List (String × PyVal)) (r : HttpResponse)
    (h : apiHandler em sf env event = Except.ok r) :
    ((r = _response 500 (msgPayload "No output from workflow")) ↔
      ∃ bs d arn, WorkflowReached env event bs d arn ∧
        (sf arn (jsonDumps (inputPayload d)) = Except.ok Option.none ∨
         sf arn (jsonDumps (inputPayload d)) = Except.ok (some ""))) ∧
    ((r = _response 500 (msgPayload "Malformed workflow output")) ↔
      ∃ bs d arn os, WorkflowReached env event bs d arn ∧
        sf arn (jsonDumps (inputPayload d)) = Except.ok (some os) ∧ os ≠ "" ∧
        jsonLoads os = Option.none) := by
  have h' : handleRequest sf env event = Except.ok r := h
  rcases handleRequest_ok_split sf env event r h' with
    ⟨bs, hbu, hr⟩ | ⟨bs, d, hpo, hm, hr⟩ | ⟨bs, d, hpo, hm, henv, hr⟩ |
    ⟨bs, d, arn, e, hw, hsf, hr⟩ | ⟨bs, d, arn, hw, hsf, hr⟩ |
    ⟨bs, d, arn, os, hw, hsf, hos, hlo, hr⟩ |
    ⟨bs, d, arn, os, od, hw, hsf, hos, hlo, hq, hr⟩ |
    ⟨bs, d, arn, os, od, hw, hsf, hos, hlo, hq, hr⟩ <;> subst hr
  · -- invalid-JSON 400
    constructor
    · refine ⟨fun he => absurd he (resp_ne _ _ (by decide)), ?_⟩
      rintro ⟨bs1, d1, arn1, hw1, -⟩
      exact (unparsable_not_parsed hbu hw1.1).elim
    · refine ⟨fun he => absurd he (resp_ne _ _ (by decide)), ?_⟩
      rintro ⟨bs1, d1, arn1, os1, hw1, -⟩
      exact (unparsable_not_parsed hbu hw1.1).elim
  · -- missing-fields 400
    have refute : ∀ {bs1 d1 arn1}, WorkflowReached env event bs1 d1 arn1 → False := by
      intro bs1 d1 arn1 hw1
      obtain ⟨-, hd⟩ := parsedObject_unique hpo hw1.1
      have := hw1.2.1
      rw [← hd, hm] at this
      cases this
    constructor
    · refine ⟨fun he => absurd he (resp_ne _ _ (by decide)), ?_⟩
      rintro ⟨bs1, d1, arn1, hw1, -⟩
      exact (refute hw1).elim
    · refine ⟨fun he => absurd he (resp_ne _ _ (by decide)), ?_⟩
      rintro ⟨bs1, d1, arn1, os1, hw1, -⟩
      exact (refute hw1).elim
  · -- server not configured 500
    have refute : ∀ {bs1 d1 arn1}, WorkflowReached env event bs1 d1 arn1 → False := by
      intro bs1 d1 arn1 hw1
      obtain ⟨-, -, henv1, harn1⟩ := hw1
      rcases henv with he2 | he2 <;> rw [he2] at henv1
      · cases henv1
      · injection henv1 with h3
        exact harn1 h3.symm
    constructor
    · refine ⟨fun he => absurd he (by decide), ?_⟩
      rintro ⟨bs1, d1, arn1, hw1, -⟩
      exact (refute hw1).elim
    · refine ⟨fun he => absurd he (by decide), ?_⟩
      rintro ⟨bs1, d1, arn1, os1, hw1, -⟩
      exact (refute hw1).elim
  · -- failed to start workflow 500
    have refute : ∀ {bs1 d1 arn1 out}, WorkflowReached env event bs1 d1 arn1 →
        sf arn1 (jsonDumps (inputPayload d1)) = Except.ok out → False := by
      intro bs1 d1 arn1 out hw1 hsf1
      obtain ⟨-, hd, harn⟩ := workflowReached_unique hw hw1
      rw [← hd, ← harn, hsf] at hsf1
      cases hsf1
    constructor
    · refine ⟨fun he => absurd he (failedResp_ne_noOutput e), ?_⟩
      rintro ⟨bs1, d1, arn1, hw1, hout⟩
      rcases hout with hout | hout <;> exact (refute hw1 hout).elim
    · refine ⟨fun he => absurd he (failedResp_ne_malformed e), ?_⟩
      rintro ⟨bs1, d1, arn1, os1, hw1, hout, -⟩
      exact (refute hw1 hout).elim
  · -- no output 500 (the matching case of the first iff)
    constructor
    · exact ⟨fun _ => ⟨bs, d, arn, hw, hsf⟩, fun _ => rfl⟩
    · refine ⟨fun he => absurd he (by decide), ?_⟩
      rintro ⟨bs1, d1, arn1, os1, hw1, hsf1, hos1, -⟩
      obtain ⟨-, hd, harn⟩ := workflowReached_unique hw hw1
      rw [← hd, ← harn] at hsf1
      rcases hsf with hsf | hsf <;> rw [hsf] at hsf1 <;> injection hsf1 with h3
      · cases h3
      · injection h3 with h4
        exact (hos1 h4.symm).elim
  · -- malformed output 500 (the matching case of the second iff)
    constructor
    · refine ⟨fun he => absurd he (by decide), ?_⟩
      rintro ⟨bs1, d1, arn1, hw1, hout⟩
      obtain ⟨-, hd, harn⟩ := workflowReached_unique hw hw1
      rw [← hd, ← harn, hsf] at hout
      rcases hout with hout | hout <;> injection hout with h3
      · cases h3
      · injection h3 with h4
        exact (hos h4).elim
    · exact ⟨fun _ => ⟨bs, d, arn, os, hw, hsf, hos, hlo⟩, fun _ => rfl⟩
  · -- workflow did not return a quote 500
    constructor
    · refine ⟨fun he => absurd he (by decide), ?_⟩
      rintro ⟨bs1, d1, arn1, hw1, hout⟩
      obtain ⟨-, hd, harn⟩ := workflowReached_unique hw hw1
      rw [← hd, ← harn, hsf] at hout
      rcases hout with hout | hout <;> injection hout with h3
      · cases h3
      · injection h3 with h4
        exact (hos h4).elim
    · refine ⟨fun he => absurd he (by decide), ?_⟩
      rintro ⟨bs1, d1, arn1, os1, hw1, hsf1, hos1, hlo1⟩
      obtain ⟨-, hd, harn⟩ := workflowReached_unique hw hw1
      rw [← hd, ← harn, hsf] at hsf1
      injection hsf1 with h3
      injection h3 with h4
      rw [← h4] at hlo1
      rw [hlo] at hlo1
      cases hlo1
  · -- success 200
    constructor
    · refine ⟨fun he => absurd he (resp_ne _ _ (by decide)), ?_⟩
      rintro ⟨bs1, d1, arn1, hw1, hout⟩
      obtain ⟨-, hd, harn⟩ := workflowReached_unique hw hw1
      rw [← hd, ← harn, hsf] at hout
      rcases hout with hout | hout <;> injection hout with h3
      · cases h3
      · injection h3 with h4
        exact (hos h4).elim
    · refine ⟨fun he => absurd he (resp_ne _ _ (by decide)), ?_⟩
      rintro ⟨bs1, d1, arn1, os1, hw1, hsf1, hos1, hlo1⟩
      obtain ⟨-, hd, harn⟩ := workflowReached_unique hw hw1
      rw [← hd, ← harn, hsf] at hsf1
      injection hsf1 with h3
      injection h3 with h4
      rw [← h4] at hlo1
      rw [hlo] at hlo1
      cases hlo1

theorem apiHandler_output_500_iff_witness :
    (_response 500 (msgPayload "No output from workflow")) =
      _response 500 (msgPayload "No output from workflow") ↔
    ∃ bs d arn, WorkflowReached (some "arn:x") evValid bs d arn ∧
      (sfEmptyOut arn (jsonDumps (inputPayload d)) = Except.ok Option.none ∨
       sfEmptyOut arn (jsonDumps (inputPayload d)) = Except.ok (some "")) :=
  (apiHandler_output_500_iff Option.none sfEmptyOut (some "arn:x") evValid
    (_response 500 (msgPayload "No output from workflow")) rfl).1

end JewelersModel
